import Mathlib

/-!
Verification development for `openai_example.py`: a shallow embedding of the
search adapter (`search_duckduckgo`) and the orchestrator
(`get_chat_completion_result_with_web_search`), together with theorems about
the query-string construction, the keyword-dispatch to the adapter, and the
message-sequence discipline of one orchestration run.

External collaborators (the OpenAI model API, the DuckDuckGo provider,
`json.loads`) are modelled as oracle parameters; everything the repository's
own code computes is embedded as executable Lean definitions.
-/

namespace OpenAIExample

/-- Value of the `sites` parameter, Python type `list[str] | str | None`
(see the signature of `search_duckduckgo` in `openai_example.py`, line 15). -/
inductive Sites where
  | none : Sites
  | single (domain : String) : Sites
  | several (domains : List String) : Sites

/-- Query string that `search_duckduckgo` builds before contacting the
provider (`openai_example.py` lines 31-38).  Python's `if sites:` is falsy on
`None`, on the empty string and on the empty list, hence the emptiness tests;
the `isinstance(str)` branch appends a bare `site:` clause, the
`isinstance(list)` branch appends a parenthesised `" OR "`-join of clauses. -/
def searchQuery (query : String) (sites : Sites) : String :=
  match sites with
  | Sites.none => query
  | Sites.single s => if s = "" then query else query ++ " site:" ++ s
  | Sites.several l =>
      if l = [] then query
      else query ++ " (" ++ String.intercalate " OR " (l.map (fun site => "site:" ++ site)) ++ ")"

/-- One search record of the provider's answer (a `title`/`href`/`body` dict
in `duckduckgo_search`). -/
structure SearchRecord where
  title : String
  href : String
  body : String

/-- Request that `search_duckduckgo` hands to the provider: keyword string
together with the `max_results` and `region` arguments, passed through
unchanged (`openai_example.py` lines 40-41). -/
structure ProviderRequest where
  keywords : String
  max_results : Int
  region : String

/-- Provider request assembled by `search_duckduckgo` from its arguments. -/
def search_duckduckgo_request (query : String) (max_results : Int) (region : String)
    (sites : Sites) : ProviderRequest :=
  ⟨searchQuery query sites, max_results, region⟩

/-- The search adapter: builds the (possibly site-restricted) query, sends one
request to the provider and returns the provider's record list unchanged
(`openai_example.py` lines 14-43).  The provider `ddgs.text` is external and
appears as a function parameter. -/
def search_duckduckgo (provider : ProviderRequest → List SearchRecord)
    (query : String) (max_results : Int) (region : String) (sites : Sites) :
    List SearchRecord :=
  provider (search_duckduckgo_request query max_results region sites)

/-! Claims C1, C3, C4, C5, C6, C9 are about the adapter. -/

/-- Claim C1, counterexample.  With `sites = ["amc.seoul.kr"]` (a list), the
emitted query string does NOT end in `site:amc.seoul.kr`: the list branch
parenthesises the clause, so the string ends in `site:amc.seoul.kr)`. -/
theorem c1_list_sites_query_not_endswith_bare_clause :
    ¬ ("site:amc.seoul.kr".data <:+
        (search_duckduckgo_request "당화혈색소 정상 수치" 10 "kr-kr"
          (Sites.several ["amc.seoul.kr"])).keywords.data) := by
  decide

/-- Claim C1 (corrected): calling the adapter with the example arguments
produces a query string ending in the parenthesised clause
`(site:amc.seoul.kr)`, and the provider request asks for at most 10 results. -/
theorem c1_example_query_and_bound :
    ("(site:amc.seoul.kr)".data <:+
        (search_duckduckgo_request "당화혈색소 정상 수치" 10 "kr-kr"
          (Sites.several ["amc.seoul.kr"])).keywords.data)
    ∧ (search_duckduckgo_request "당화혈색소 정상 수치" 10 "kr-kr"
          (Sites.several ["amc.seoul.kr"])).max_results ≤ 10 := by
  constructor
  · decide
  · decide

/-- Claim C3: for a single domain given as a (nonempty) string, the emitted
query is exactly the original query followed by one `site:<domain>` clause; in
particular the clause is a suffix of the emitted query. -/
theorem c3_single_site_appends_one_clause (query d : String) (hd : d ≠ "") :
    searchQuery query (Sites.single d) = query ++ " site:" ++ d
    ∧ ∃ t, searchQuery query (Sites.single d) = t ++ ("site:" ++ d) := by
  constructor
  · simp [searchQuery, hd]
  · refine ⟨query ++ " ", ?_⟩
    simp [searchQuery, hd]
    apply String.ext
    simp [String.data_append]

/-- Claim C3, witness at `query = "q"`, `d = "naver.com"`. -/
theorem c3_single_site_appends_one_clause_witness :
    ("naver.com" ≠ "")
    ∧ (searchQuery "q" (Sites.single "naver.com") = "q" ++ " site:" ++ "naver.com"
        ∧ ∃ t, searchQuery "q" (Sites.single "naver.com") = t ++ ("site:" ++ "naver.com")) :=
  ⟨by decide, c3_single_site_appends_one_clause "q" "naver.com" (by decide)⟩

/-- Claim C4: for a list of `n ≥ 2` domains, the emitted query is the original
query followed by a parenthesised clause whose content is the `" OR "`-join of
the `n` clauses `site:<domain>`, one per listed domain in list order. -/
theorem c4_site_list_appends_or_join (query : String) (l : List String)
    (hl : 2 ≤ l.length) :
    searchQuery query (Sites.several l)
      = query ++ " (" ++ String.intercalate " OR " (l.map (fun site => "site:" ++ site)) ++ ")"
    ∧ (l.map (fun site => "site:" ++ site)).length = l.length := by
  have hne : l ≠ [] := by
    intro h
    rw [h] at hl
    simp at hl
  constructor
  · simp [searchQuery, hne]
  · simp

/-- Claim C4, witness at `l = ["naver.com", "daum.net"]`. -/
theorem c4_site_list_appends_or_join_witness :
    2 ≤ (["naver.com", "daum.net"] : List String).length
    ∧ (searchQuery "q" (Sites.several ["naver.com", "daum.net"])
        = "q" ++ " (" ++ String.intercalate " OR "
            ((["naver.com", "daum.net"] : List String).map (fun site => "site:" ++ site)) ++ ")"
      ∧ ((["naver.com", "daum.net"] : List String).map (fun site => "site:" ++ site)).length
          = (["naver.com", "daum.net"] : List String).length) :=
  ⟨by decide, c4_site_list_appends_or_join "q" ["naver.com", "daum.net"] (by decide)⟩

/-- Claim C5: with `sites = None` the query string passed to the provider is
the original query, unchanged. -/
theorem c5_no_sites_query_unchanged (query : String) (max_results : Int) (region : String) :
    (search_duckduckgo_request query max_results region Sites.none).keywords = query := rfl

/-- Claim C9: an empty list and an empty string are falsy in Python, so the
query string passed to the provider is the original query, exactly as for
`sites = None`. -/
theorem c9_empty_sites_query_unchanged (query : String) (max_results : Int) (region : String) :
    (search_duckduckgo_request query max_results region (Sites.several [])).keywords = query
    ∧ (search_duckduckgo_request query max_results region (Sites.single "")).keywords = query := by
  constructor
  · simp [search_duckduckgo_request, searchQuery]
  · simp [search_duckduckgo_request, searchQuery]

/-- Claim C6: if the provider honours its bound (at most `max_results` records
per request, with a negative bound meaning none), the adapter returns at most
`max_results` records for every positive `max_results`. -/
theorem c6_result_count_bounded (provider : ProviderRequest → List SearchRecord)
    (query : String) (max_results : Int) (region : String) (sites : Sites)
    (hpos : 0 < max_results)
    (hprov : ∀ req : ProviderRequest, (provider req).length ≤ req.max_results.toNat) :
    ((search_duckduckgo provider query max_results region sites).length : Int) ≤ max_results := by
  have h := hprov (search_duckduckgo_request query max_results region sites)
  simp only [search_duckduckgo, search_duckduckgo_request] at *
  omega

/-- Claim C6, witness with the empty provider and `max_results = 1`. -/
theorem c6_result_count_bounded_witness :
    (0 : Int) < 1
    ∧ (∀ req : ProviderRequest,
        ((fun _ : ProviderRequest => ([] : List SearchRecord)) req).length ≤ req.max_results.toNat)
    ∧ ((search_duckduckgo (fun _ => []) "q" 1 "kr-kr" Sites.none).length : Int) ≤ 1 :=
  ⟨by decide, fun req => by simp,
    c6_result_count_bounded (fun _ => []) "q" 1 "kr-kr" Sites.none (by decide)
      (fun req => by simp)⟩

/-! Orchestrator embedding (`get_chat_completion_result_with_web_search`,
`openai_example.py` lines 46-128). -/

/-- Parsed JSON value, the result type of `json.loads` on the model's
arguments payload. -/
inductive JsonValue where
  | null : JsonValue
  | jbool (b : Bool) : JsonValue
  | jnum (n : Int) : JsonValue
  | jstr (s : String) : JsonValue
  | jarr (elems : List JsonValue) : JsonValue
  | jobj (fields : List (String × JsonValue)) : JsonValue

/-- First binding of a key in a parsed arguments object (Python dicts from
`json.loads` have unique keys, so first = only). -/
def lookupArg (args : List (String × JsonValue)) (key : String) : Option JsonValue :=
  (args.find? (fun kv => kv.1 == key)).map (fun kv => kv.2)

/-- How the call `search_duckduckgo(**tool_call_args, region=region,
sites=sites)` on line 109 can raise a `TypeError` instead of running. -/
inductive DispatchError where
  | duplicateKeyword (key : String) : DispatchError
  | unexpectedKeyword (key : String) : DispatchError
  | missingArgument (key : String) : DispatchError

/-- Errors raised while the call itself is being assembled or bound, before
any adapter code runs: a key also passed explicitly, or a key that is not a
parameter of `search_duckduckgo`. -/
def DispatchError.isKeywordError : DispatchError → Bool
  | DispatchError.duplicateKeyword _ => true
  | DispatchError.unexpectedKeyword _ => true
  | DispatchError.missingArgument _ => false

/-- The argument tuple a successful dispatch hands to `search_duckduckgo`.
The model-supplied `query` and `max_results` are whatever JSON values the
payload holds; `region` and `sites` come from the orchestrator's caller. -/
structure SearchCall where
  query : JsonValue
  max_results : JsonValue
  region : String
  sites : Sites

/-- Python semantics of `search_duckduckgo(**tool_call_args, region=region,
sites=sites)` (line 109): building the keyword mapping raises on a key that is
also passed explicitly (`region`, `sites`); binding then raises on a keyword
that is no parameter, and on a missing required `query`; otherwise the adapter
receives the payload's `query` and `max_results` (defaulting to 5) together
with the caller's `region` and `sites`. -/
def dispatchSearch (args : List (String × JsonValue)) (region : String) (sites : Sites) :
    Except DispatchError SearchCall :=
  match args.find? (fun kv => kv.1 == "region" || kv.1 == "sites") with
  | Option.some kv => Except.error (DispatchError.duplicateKeyword kv.1)
  | Option.none =>
    match args.find? (fun kv => !(kv.1 == "query") && !(kv.1 == "max_results")) with
    | Option.some kv => Except.error (DispatchError.unexpectedKeyword kv.1)
    | Option.none =>
      match lookupArg args "query" with
      | Option.none => Except.error (DispatchError.missingArgument "query")
      | Option.some q =>
          Except.ok ⟨q, (lookupArg args "max_results").getD (JsonValue.jnum 5), region, sites⟩

/-- System instruction of the initial message sequence (line 91). -/
def systemPrompt : String :=
  "당신은 웹 검색 결과를 참고해 정확한 정보를 제공하는 어시스턴트입니다. 반드시 답변 마지막에는 참고한 웹 검색 결과의 링크를 제공해야 합니다."

/-- Conversation message: system instruction, user query, the model's
tool-invocation request, or a tool-execution output (lines 88-94, 111-118). -/
inductive Message where
  | system (content : String) : Message
  | user (content : String) : Message
  | toolCall (call_id : String) (fn : String) (arguments : String) : Message
  | functionCallOutput (call_id : String) (output : String) : Message

/-- The model's tool-invocation request, `tool_call_response.output[0]`:
call id, function name and raw arguments JSON string (line 106). -/
structure ToolCall where
  call_id : String
  fn : String
  arguments : String

/-- Tool declaration advertised to the model (lines 64-86): function name,
required and declared parameters, and the `max_results` default, which is the
orchestrator caller's `max_results`. -/
structure ToolDeclaration where
  fn : String
  required : List String
  properties : List String
  max_results_default : Int

/-- The single declared capability, `search_duckduckgo`. -/
def searchToolDeclaration (max_results : Int) : ToolDeclaration :=
  ⟨"search_duckduckgo", ["query"], ["query", "max_results"], max_results⟩

/-- Initial message sequence: one system instruction, then one user message
holding the raw query (lines 88-94). -/
def initialMessages (query : String) : List Message :=
  [Message.system systemPrompt, Message.user query]

/-- Message appended for the model's tool-invocation request (line 111). -/
def toolCallMessage (tc : ToolCall) : Message :=
  Message.toolCall tc.call_id tc.fn tc.arguments

/-- Message sequence after the two appends of lines 111-118: the
tool-invocation request, then a tool output tagged with the same call id. -/
def messagesAfterTool (query : String) (tc : ToolCall) (output : String) : List Message :=
  initialMessages query ++ [toolCallMessage tc, Message.functionCallOutput tc.call_id output]

/-- External collaborators of one orchestration run: the model's first
response (a tool call, since tool choice is forced), `json.loads`, the
executed search rendered by `str(...)`, and the model's second response. -/
structure Oracles where
  firstResponse : ToolDeclaration → List Message → ToolCall
  parseArguments : String → Option (List (String × JsonValue))
  runSearch : SearchCall → String
  secondResponse : ToolDeclaration → List Message → String

/-- Externally visible actions of a run, in order. -/
inductive Event where
  | firstModelCall : Event
  | searchExecuted (call : SearchCall) : Event
  | secondModelCall : Event

/-- Ways a run dies with an uncaught exception after the first model call. -/
inductive OrchError where
  | jsonDecodeError : OrchError
  | dispatchFailure (e : DispatchError) : OrchError

/-- Outcome of one orchestration run: the returned answer or the uncaught
error, the message sequence as far as it was built, and the external actions
performed. -/
structure RunTrace where
  result : Except OrchError String
  messages : List Message
  events : List Event

/-- The model's first response in a given run (line 106). -/
def firstToolCall (o : Oracles) (query : String) (max_results : Int) : ToolCall :=
  o.firstResponse (searchToolDeclaration max_results) (initialMessages query)

/-- One orchestration run (lines 88-128): build the initial messages, make the
first model call with forced tool choice, `json.loads` the arguments (a parse
failure is an uncaught `JSONDecodeError`), dispatch to the adapter (a keyword
error is an uncaught `TypeError`), append the tool-invocation request and the
tool output, make the second model call, return its text. -/
def orchestrate (o : Oracles) (query : String) (max_results : Int)
    (region : String) (sites : Sites) : RunTrace :=
  match o.parseArguments (firstToolCall o query max_results).arguments with
  | Option.none =>
      ⟨Except.error OrchError.jsonDecodeError, initialMessages query, [Event.firstModelCall]⟩
  | Option.some args =>
    match dispatchSearch args region sites with
    | Except.error e =>
        ⟨Except.error (OrchError.dispatchFailure e), initialMessages query,
          [Event.firstModelCall]⟩
    | Except.ok call =>
        ⟨Except.ok (o.secondResponse (searchToolDeclaration max_results)
            (messagesAfterTool query (firstToolCall o query max_results) (o.runSearch call))),
          messagesAfterTool query (firstToolCall o query max_results) (o.runSearch call),
          [Event.firstModelCall, Event.searchExecuted call, Event.secondModelCall]⟩

/-- Helper: a payload whose keys are only `query` and `max_results`, with both
present, dispatches successfully to the adapter with the payload's values and
the caller's `region` and `sites`. -/
theorem dispatchSearch_ok_of_clean_keys (args : List (String × JsonValue))
    (region : String) (sites : Sites) (jq jm : JsonValue)
    (hkeys : ∀ kv ∈ args, kv.1 = "query" ∨ kv.1 = "max_results")
    (hq : lookupArg args "query" = Option.some jq)
    (hm : lookupArg args "max_results" = Option.some jm) :
    dispatchSearch args region sites = Except.ok ⟨jq, jm, region, sites⟩ := by
  have h1 : args.find? (fun kv => kv.1 == "region" || kv.1 == "sites") = Option.none := by
    rw [List.find?_eq_none]
    intro kv hkv
    rcases hkeys kv hkv with h | h <;> simp [h]
  have h2 : args.find? (fun kv => !(kv.1 == "query") && !(kv.1 == "max_results"))
      = Option.none := by
    rw [List.find?_eq_none]
    intro kv hkv
    rcases hkeys kv hkv with h | h <;> simp [h]
  simp only [dispatchSearch, h1, h2, hq, hm, Option.getD_some]

/-- Claim C2: when the model's parsed payload holds only the keys `query` and
`max_results`, the run executes the adapter exactly once, between the two
model calls, with the payload's `query` and `max_results` and exactly the
caller-supplied `region` and `sites`. -/
theorem c2_dispatch_merges_caller_region_sites (o : Oracles) (query : String)
    (max_results : Int) (region : String) (sites : Sites)
    (args : List (String × JsonValue)) (jq jm : JsonValue)
    (hparse : o.parseArguments (firstToolCall o query max_results).arguments
        = Option.some args)
    (hkeys : ∀ kv ∈ args, kv.1 = "query" ∨ kv.1 = "max_results")
    (hq : lookupArg args "query" = Option.some jq)
    (hm : lookupArg args "max_results" = Option.some jm) :
    (orchestrate o query max_results region sites).events
      = [Event.firstModelCall, Event.searchExecuted ⟨jq, jm, region, sites⟩,
         Event.secondModelCall] := by
  have hd := dispatchSearch_ok_of_clean_keys args region sites jq jm hkeys hq hm
  simp only [orchestrate, hparse, hd]

/-- Stub oracle used by the orchestrator witnesses: the model requests
`search_duckduckgo` with a fixed arguments string, parsed by a fixed table. -/
def stubOracles (arguments : String) (parsed : Option (List (String × JsonValue))) : Oracles :=
  ⟨fun _ _ => ⟨"call_1", "search_duckduckgo", arguments⟩,
   fun _ => parsed, fun _ => "[]", fun _ _ => "final answer"⟩

/-- Claim C2, witness: payload `{"query": "X", "max_results": 10}`. -/
theorem c2_dispatch_merges_caller_region_sites_witness :
    ((stubOracles "{}" (Option.some
        [("query", JsonValue.jstr "X"), ("max_results", JsonValue.jnum 10)])).parseArguments
      (firstToolCall (stubOracles "{}" (Option.some
        [("query", JsonValue.jstr "X"), ("max_results", JsonValue.jnum 10)])) "q" 5).arguments
      = Option.some [("query", JsonValue.jstr "X"), ("max_results", JsonValue.jnum 10)])
    ∧ (orchestrate (stubOracles "{}" (Option.some
        [("query", JsonValue.jstr "X"), ("max_results", JsonValue.jnum 10)])) "q" 5 "kr-kr"
        (Sites.single "naver.com")).events
      = [Event.firstModelCall,
         Event.searchExecuted ⟨JsonValue.jstr "X", JsonValue.jnum 10, "kr-kr",
           Sites.single "naver.com"⟩,
         Event.secondModelCall] :=
  ⟨rfl,
    c2_dispatch_merges_caller_region_sites _ "q" 5 "kr-kr" (Sites.single "naver.com")
      [("query", JsonValue.jstr "X"), ("max_results", JsonValue.jnum 10)]
      (JsonValue.jstr "X") (JsonValue.jnum 10) rfl
      (by intro kv hkv; simp at hkv; rcases hkv with h | h <;> simp [h]) rfl rfl⟩

/-- Claim C7: within one run the message sequence is append-only.  It starts
as exactly one system instruction followed by one user message with the raw
query; on the success path the only later change is appending the model's
tool-invocation request and then a tool output tagged with the same call id,
so the initial sequence is a prefix of the final one. -/
theorem c7_messages_append_only (o : Oracles) (query : String) (max_results : Int)
    (region : String) (sites : Sites) (args : List (String × JsonValue)) (call : SearchCall)
    (hparse : o.parseArguments (firstToolCall o query max_results).arguments
        = Option.some args)
    (hdisp : dispatchSearch args region sites = Except.ok call) :
    initialMessages query = [Message.system systemPrompt, Message.user query]
    ∧ (orchestrate o query max_results region sites).messages
        = initialMessages query
          ++ [Message.toolCall (firstToolCall o query max_results).call_id
                (firstToolCall o query max_results).fn
                (firstToolCall o query max_results).arguments,
              Message.functionCallOutput (firstToolCall o query max_results).call_id
                (o.runSearch call)]
    ∧ initialMessages query <+: (orchestrate o query max_results region sites).messages := by
  refine ⟨rfl, ?_, ?_⟩
  · simp only [orchestrate, hparse, hdisp, messagesAfterTool, toolCallMessage]
  · simp only [orchestrate, hparse, hdisp, messagesAfterTool]
    exact List.prefix_append _ _

/-- Claim C7, witness: a stubbed run with payload `{"query": "X"}`. -/
theorem c7_messages_append_only_witness :
    ((stubOracles "{}" (Option.some [("query", JsonValue.jstr "X")])).parseArguments
        (firstToolCall (stubOracles "{}" (Option.some [("query", JsonValue.jstr "X")]))
          "q" 5).arguments
      = Option.some [("query", JsonValue.jstr "X")])
    ∧ (dispatchSearch [("query", JsonValue.jstr "X")] "kr-kr" Sites.none
        = Except.ok ⟨JsonValue.jstr "X", JsonValue.jnum 5, "kr-kr", Sites.none⟩)
    ∧ (initialMessages "q" = [Message.system systemPrompt, Message.user "q"]
      ∧ (orchestrate (stubOracles "{}" (Option.some [("query", JsonValue.jstr "X")]))
            "q" 5 "kr-kr" Sites.none).messages
          = initialMessages "q"
            ++ [Message.toolCall
                  (firstToolCall (stubOracles "{}"
                    (Option.some [("query", JsonValue.jstr "X")])) "q" 5).call_id
                  (firstToolCall (stubOracles "{}"
                    (Option.some [("query", JsonValue.jstr "X")])) "q" 5).fn
                  (firstToolCall (stubOracles "{}"
                    (Option.some [("query", JsonValue.jstr "X")])) "q" 5).arguments,
                Message.functionCallOutput
                  (firstToolCall (stubOracles "{}"
                    (Option.some [("query", JsonValue.jstr "X")])) "q" 5).call_id
                  ((stubOracles "{}" (Option.some [("query", JsonValue.jstr "X")])).runSearch
                    ⟨JsonValue.jstr "X", JsonValue.jnum 5, "kr-kr", Sites.none⟩)]
      ∧ initialMessages "q"
          <+: (orchestrate (stubOracles "{}" (Option.some [("query", JsonValue.jstr "X")]))
                "q" 5 "kr-kr" Sites.none).messages) :=
  ⟨rfl, rfl,
    c7_messages_append_only (stubOracles "{}" (Option.some [("query", JsonValue.jstr "X")]))
      "q" 5 "kr-kr" Sites.none [("query", JsonValue.jstr "X")]
      ⟨JsonValue.jstr "X", JsonValue.jnum 5, "kr-kr", Sites.none⟩ rfl rfl⟩

/-- Claim C8: when the arguments payload does not parse as JSON, the run ends
in the uncaught decode error right after the first model call: the adapter is
never executed, the second model call never happens, the messages are still
the initial two, and no partial answer is returned. -/
theorem c8_malformed_arguments_fatal (o : Oracles) (query : String) (max_results : Int)
    (region : String) (sites : Sites)
    (hparse : o.parseArguments (firstToolCall o query max_results).arguments = Option.none) :
    orchestrate o query max_results region sites
      = ⟨Except.error OrchError.jsonDecodeError, initialMessages query, [Event.firstModelCall]⟩
    ∧ (∀ call, Event.searchExecuted call ∉ (orchestrate o query max_results region sites).events)
    ∧ Event.secondModelCall ∉ (orchestrate o query max_results region sites).events := by
  have h : orchestrate o query max_results region sites
      = ⟨Except.error OrchError.jsonDecodeError, initialMessages query,
          [Event.firstModelCall]⟩ := by
    simp only [orchestrate, hparse]
  refine ⟨h, ?_, ?_⟩
  · intro call
    rw [h]
    simp
  · rw [h]
    simp

/-- Claim C8, witness: a stubbed model answering with a non-JSON payload. -/
theorem c8_malformed_arguments_fatal_witness :
    ((stubOracles "not json" Option.none).parseArguments
        (firstToolCall (stubOracles "not json" Option.none) "q" 5).arguments = Option.none)
    ∧ (orchestrate (stubOracles "not json" Option.none) "q" 5 "kr-kr" Sites.none
        = ⟨Except.error OrchError.jsonDecodeError, initialMessages "q", [Event.firstModelCall]⟩
      ∧ (∀ call, Event.searchExecuted call
          ∉ (orchestrate (stubOracles "not json" Option.none) "q" 5 "kr-kr" Sites.none).events)
      ∧ Event.secondModelCall
          ∉ (orchestrate (stubOracles "not json" Option.none) "q" 5 "kr-kr" Sites.none).events) :=
  ⟨rfl, c8_malformed_arguments_fatal (stubOracles "not json" Option.none) "q" 5 "kr-kr"
    Sites.none rfl⟩

/-- Claim C10: if the parsed payload holds any key other than `query` and
`max_results` (in particular `region` or `sites`), the dispatch raises a
duplicate- or unexpected-keyword `TypeError`: the run ends in that error right
after the first model call and the adapter is never executed, so a
model-supplied `region` or `sites` is neither used nor overridden. -/
theorem c10_extra_keys_fatal (o : Oracles) (query : String) (max_results : Int)
    (region : String) (sites : Sites) (args : List (String × JsonValue))
    (kv : String × JsonValue)
    (hparse : o.parseArguments (firstToolCall o query max_results).arguments
        = Option.some args)
    (hmem : kv ∈ args) (hnq : kv.1 ≠ "query") (hnm : kv.1 ≠ "max_results") :
    ∃ e : DispatchError,
      dispatchSearch args region sites = Except.error e
      ∧ e.isKeywordError = true
      ∧ (orchestrate o query max_results region sites).result
          = Except.error (OrchError.dispatchFailure e)
      ∧ (orchestrate o query max_results region sites).events = [Event.firstModelCall] := by
  have herr : ∃ e : DispatchError,
      dispatchSearch args region sites = Except.error e ∧ e.isKeywordError = true := by
    unfold dispatchSearch
    cases h1 : args.find? (fun kv => kv.1 == "region" || kv.1 == "sites") with
    | some kv' =>
        exact ⟨DispatchError.duplicateKeyword kv'.1, rfl, rfl⟩
    | none =>
        cases h2 : args.find? (fun kv => !(kv.1 == "query") && !(kv.1 == "max_results")) with
        | some kv' =>
            exact ⟨DispatchError.unexpectedKeyword kv'.1, rfl, rfl⟩
        | none =>
            exfalso
            rw [List.find?_eq_none] at h2
            have := h2 kv hmem
            simp [hnq, hnm] at this
  obtain ⟨e, he, hk⟩ := herr
  refine ⟨e, he, hk, ?_, ?_⟩
  · simp only [orchestrate, hparse, he]
  · simp only [orchestrate, hparse, he]

/-- Claim C10, witness: payload `{"query": "X", "region": "us-en"}`. -/
theorem c10_extra_keys_fatal_witness :
    ((stubOracles "{}" (Option.some
        [("query", JsonValue.jstr "X"), ("region", JsonValue.jstr "us-en")])).parseArguments
      (firstToolCall (stubOracles "{}" (Option.some
        [("query", JsonValue.jstr "X"), ("region", JsonValue.jstr "us-en")])) "q" 5).arguments
      = Option.some [("query", JsonValue.jstr "X"), ("region", JsonValue.jstr "us-en")])
    ∧ (("region", JsonValue.jstr "us-en")
        ∈ [("query", JsonValue.jstr "X"), ("region", JsonValue.jstr "us-en")])
    ∧ (∃ e : DispatchError,
        dispatchSearch [("query", JsonValue.jstr "X"), ("region", JsonValue.jstr "us-en")]
            "kr-kr" Sites.none
          = Except.error e
        ∧ e.isKeywordError = true
        ∧ (orchestrate (stubOracles "{}" (Option.some
            [("query", JsonValue.jstr "X"), ("region", JsonValue.jstr "us-en")]))
            "q" 5 "kr-kr" Sites.none).result
            = Except.error (OrchError.dispatchFailure e)
        ∧ (orchestrate (stubOracles "{}" (Option.some
            [("query", JsonValue.jstr "X"), ("region", JsonValue.jstr "us-en")]))
            "q" 5 "kr-kr" Sites.none).events = [Event.firstModelCall]) :=
  ⟨rfl, by simp,
    c10_extra_keys_fatal (stubOracles "{}" (Option.some
        [("query", JsonValue.jstr "X"), ("region", JsonValue.jstr "us-en")]))
      "q" 5 "kr-kr" Sites.none
      [("query", JsonValue.jstr "X"), ("region", JsonValue.jstr "us-en")]
      ("region", JsonValue.jstr "us-en") rfl (by simp) (by simp) (by simp)⟩

end OpenAIExample
